import Mathlib

/-!
Shallow embedding of the financial projection engine of `src/sunerdsapp.py`
(`SolarAudit.calculate_detailed_financials` and the data it reads), over exact
rational arithmetic.  Python floats are modelled as `ℚ`; `round(x, k)` is
modelled as rounding `x * 10^k` to the nearest integer (Python uses
round-half-to-even on binary floats; the two agree away from exact half-way
points, and every concrete value used below is away from a half-way point).

The annual production estimate is a parameter of the embedded projection: in
the source it is obtained from `calculate_solar_potential`, a collaborator the
projection only reads one number from.

The SQLite row of the `financial_data` table is embedded as a structure whose
fields are in the exact column order of the `CREATE TABLE` statement, together
with the positional access `FinancialRow.get` that `calculate_detailed_financials`
uses (`financial_data[1]`, `financial_data[2]`, ...).
-/

namespace Sunerdsapp

/-- Python `round(q, 2)` modelled on `ℚ`: nearest multiple of `1/100`. -/
def round2 (q : ℚ) : ℚ := (round (q * 100) : ℤ) / 100

/-- Python `round(q, 3)` modelled on `ℚ`: nearest multiple of `1/1000`. -/
def round3 (q : ℚ) : ℚ := (round (q * 1000) : ℤ) / 1000

/-- One row of the `financial_data` table, fields in the column order of the
`CREATE TABLE financial_data` statement of `setup_database` (the `timestamp`
column, never read by the projection, is omitted):
`id, property_id, electricity_rate, installation_cost_per_watt, incentives,
financing_rate, financing_term, maintenance_cost_annual,
electricity_price_increase`. -/
structure FinancialRow where
  id : ℚ
  property_id : ℚ
  electricity_rate : ℚ
  installation_cost_per_watt : ℚ
  incentives : ℚ
  financing_rate : ℚ
  financing_term : ℚ
  maintenance_cost_annual : ℚ
  electricity_price_increase : ℚ
  deriving DecidableEq, Repr

/-- Positional access to a fetched row, as the Python code indexes
`financial_data[i]` on the result of `SELECT * FROM financial_data`. -/
def FinancialRow.get (r : FinancialRow) : ℕ → ℚ
  | 0 => r.id
  | 1 => r.property_id
  | 2 => r.electricity_rate
  | 3 => r.installation_cost_per_watt
  | 4 => r.incentives
  | 5 => r.financing_rate
  | 6 => r.financing_term
  | 7 => r.maintenance_cost_annual
  | 8 => r.electricity_price_increase
  | _ => 0

/-- One entry of `yearly_analysis` (the dict appended at lines 231-238 of the
source), field names as in the source. -/
structure YearRow where
  year : ℕ
  production_kwh : ℚ
  electricity_rate : ℚ
  yearly_savings : ℚ
  cumulative_savings : ℚ
  roi_percentage : ℚ
  deriving DecidableEq, Repr

/-- The `financing_details` dict (lines 247-251 of the source). -/
structure FinancingDetails where
  monthly_payment : ℚ
  total_payments : ℚ
  total_interest : ℚ
  deriving DecidableEq, Repr

/-- The `system_details` dict (lines 254-259 of the source). -/
structure SystemDetails where
  size_kw : ℚ
  base_cost : ℚ
  incentives : ℚ
  net_cost : ℚ
  deriving DecidableEq, Repr

/-- The `summary` dict (lines 262-267 of the source). -/
structure Summary where
  total_25_year_savings : ℚ
  average_annual_savings : ℚ
  break_even_year : Option ℕ
  deriving DecidableEq, Repr

/-- The dict returned by `calculate_detailed_financials`. -/
structure Result where
  system_details : SystemDetails
  financing : Option FinancingDetails
  yearly_analysis : List YearRow
  summary : Summary
  deriving DecidableEq, Repr

/-- Error raised when no `financial_data` row exists for the property (the
source raises `ValueError("Financial data not found for property")`; the spec
names this condition `MissingFinancialDataError`). -/
inductive AuditError
  | missingFinancialData
  deriving DecidableEq, Repr

/-- Line 203: `system_size_kw = annual_production / (365 * 4)`. -/
def system_size_of (annual_production : ℚ) : ℚ := annual_production / (365 * 4)

/-- Line 204: `base_cost = system_size_kw * 1000 * financial_data[2]`. -/
def base_cost_of (r : FinancialRow) (annual_production : ℚ) : ℚ :=
  system_size_of annual_production * 1000 * r.get 2

/-- Line 205: `net_cost = base_cost - financial_data[3]`. -/
def net_cost_of (r : FinancialRow) (annual_production : ℚ) : ℚ :=
  base_cost_of r annual_production - r.get 3

/-- One iteration of the loop of lines 212-238: takes the loop year and the
mutable state (current `electricity_rate`, current `cumulative_savings`),
returns the appended row and the updated state.  Note the source updates the
rate (line 229) before recording it (line 234), so the recorded
`electricity_rate` is the already-escalated one. -/
def loopStep (annual_production maintenance escalation net_cost : ℚ)
    (year : ℕ) (rate cum : ℚ) : YearRow × ℚ × ℚ :=
  let production := annual_production * (1 - 5 / 1000 * (year : ℚ))
  let savings := production * rate
  let net_savings := savings - maintenance
  let cum2 := cum + net_savings
  let roi := if net_cost > 0 then cum2 / net_cost * 100 else 0
  let rate2 := rate * (1 + escalation)
  ({ year := year
     production_kwh := round2 production
     electricity_rate := round3 rate2
     yearly_savings := round2 net_savings
     cumulative_savings := round2 cum2
     roi_percentage := round2 roi }, rate2, cum2)

/-- The loop `for year in range(1, years + 1)` of lines 212-238, starting at
year `start` with `count` iterations left; returns the rows appended together
with the final state. -/
def loopAux (annual_production maintenance escalation net_cost : ℚ) :
    ℕ → ℕ → ℚ → ℚ → List YearRow × ℚ × ℚ
  | _, 0, rate, cum => ([], rate, cum)
  | start, Nat.succ k, rate, cum =>
    let s := loopStep annual_production maintenance escalation net_cost start rate cum
    let rest := loopAux annual_production maintenance escalation net_cost (start + 1) k s.2.1 s.2.2
    (s.1 :: rest.1, rest.2)

/-- Lines 265-266: `next((year["year"] for year in yearly_analysis if
year["cumulative_savings"] >= net_cost), None)`. -/
def break_even_of (rows : List YearRow) (net_cost : ℚ) : Option ℕ :=
  (rows.find? fun row => net_cost ≤ row.cumulative_savings).map YearRow.year

/-- Python float power `b ** e` as used at line 245.  Because of the column
shift, the exponent there is `financial_data[5] * 12 = financing_rate * 12`, a
float; this model is faithful whenever the exponent is a non-negative integer
(a non-integral float exponent has no exact rational power and never occurs in
the concrete inputs considered here). -/
def fpow (b e : ℚ) : ℚ := if e.den = 1 ∧ 0 ≤ e.num then b ^ e.num.toNat else 0

/-- Lines 240-251: financing details, computed only when
`financial_data[4] > 0 and financial_data[5] > 0` (because of the column shift
these are the stored `incentives` and `financing_rate`). -/
def financing_of (r : FinancialRow) (net_cost : ℚ) : Option FinancingDetails :=
  if r.get 4 > 0 ∧ r.get 5 > 0 then
    let monthly_rate := r.get 4 / 12 / 100
    let num_payments := r.get 5 * 12
    let monthly_payment := net_cost * monthly_rate * fpow (1 + monthly_rate) num_payments /
      (fpow (1 + monthly_rate) num_payments - 1)
    some { monthly_payment := round2 monthly_payment
           total_payments := round2 (monthly_payment * num_payments)
           total_interest := round2 (monthly_payment * num_payments - net_cost) }
  else none

/-- Lines 202-268 of `calculate_detailed_financials`, once a `financial_data`
row has been fetched: the pure projection from the fetched row, the annual
production estimate and the horizon `years`. -/
def project (r : FinancialRow) (annual_production : ℚ) (years : ℕ) : Result :=
  let net_cost := net_cost_of r annual_production
  let l := loopAux annual_production (r.get 6) (r.get 7) net_cost 1 years (r.get 1) 0
  let cumulative_savings := l.2.2
  { system_details :=
      { size_kw := round2 (system_size_of annual_production)
        base_cost := round2 (base_cost_of r annual_production)
        incentives := round2 (r.get 3)
        net_cost := round2 net_cost }
    financing := financing_of r net_cost
    yearly_analysis := l.1
    summary :=
      { total_25_year_savings := round2 cumulative_savings
        average_annual_savings := round2 (cumulative_savings / (years : ℚ))
        break_even_year := break_even_of l.1 net_cost } }

/-- Lines 185-268: the projection entry point.  The database fetch of the
latest `financial_data` row is modelled as an `Option FinancialRow` argument;
line 195-196 raise when it is absent, before any computation. -/
def calculate_detailed_financials (financial_data : Option FinancialRow)
    (annual_production : ℚ) (years : ℕ) : Except AuditError Result :=
  match financial_data with
  | none => Except.error AuditError.missingFinancialData
  | some r => Except.ok (project r annual_production years)

/-- Closed form of the production computed at line 214 for year `y`:
`annual_production * (1 - 0.005 * y)`. -/
def production_at (annual_production : ℚ) (y : ℕ) : ℚ :=
  annual_production * (1 - 5 / 1000 * (y : ℚ))

/-- Closed form of the electricity rate entering year `y` (the rate is
escalated once per completed year). -/
def rate_at (rate0 escalation : ℚ) (y : ℕ) : ℚ := rate0 * (1 + escalation) ^ (y - 1)

/-- Closed form of the net savings of year `y` (line 217 and 220). -/
def net_savings_at (annual_production rate0 escalation maintenance : ℚ) (y : ℕ) : ℚ :=
  production_at annual_production y * rate_at rate0 escalation y - maintenance

/-- Closed form of the cumulative savings after year `y` (line 223). -/
def cum_at (annual_production rate0 escalation maintenance : ℚ) : ℕ → ℚ
  | 0 => 0
  | Nat.succ y => cum_at annual_production rate0 escalation maintenance y +
      net_savings_at annual_production rate0 escalation maintenance (y + 1)

/-- The row the loop appends for year `y`, written with the closed forms. -/
def rowAt (annual_production rate0 escalation maintenance net_cost : ℚ) (y : ℕ) : YearRow :=
  { year := y
    production_kwh := round2 (production_at annual_production y)
    electricity_rate := round3 (rate0 * (1 + escalation) ^ y)
    yearly_savings := round2 (net_savings_at annual_production rate0 escalation maintenance y)
    cumulative_savings := round2 (cum_at annual_production rate0 escalation maintenance y)
    roi_percentage := round2 (if net_cost > 0 then
      cum_at annual_production rate0 escalation maintenance y / net_cost * 100 else 0) }

/-! ## Structural lemmas: the loop computes the closed forms -/

lemma round2_mono {a b : ℚ} (h : a ≤ b) : round2 a ≤ round2 b := by
  unfold round2
  have h1 : round (a * 100) ≤ round (b * 100) := by
    rw [round_eq, round_eq]
    exact Int.floor_le_floor (by linarith)
  have h2 : ((round (a * 100) : ℤ) : ℚ) ≤ ((round (b * 100) : ℤ) : ℚ) := by exact_mod_cast h1
  exact (div_le_div_iff_of_pos_right (by norm_num : (0:ℚ) < 100)).mpr h2

lemma loopStep_eq (A m e nc rate0 : ℚ) (st : ℕ) :
    loopStep A m e nc (st + 1) (rate0 * (1 + e) ^ st) (cum_at A rate0 e m st) =
      (rowAt A rate0 e m nc (st + 1), rate0 * (1 + e) ^ (st + 1),
        cum_at A rate0 e m (st + 1)) := by
  simp only [loopStep, rowAt, production_at, net_savings_at, rate_at, cum_at,
    Nat.add_sub_cancel, Prod.mk.injEq, YearRow.mk.injEq, true_and, and_true]
  exact ⟨congrArg round3 (by ring), by ring⟩

lemma loopAux_spec (A m e nc rate0 : ℚ) (count : ℕ) :
    ∀ st : ℕ,
      loopAux A m e nc (st + 1) count (rate0 * (1 + e) ^ st) (cum_at A rate0 e m st) =
        ((List.range count).map fun i => rowAt A rate0 e m nc (st + 1 + i),
          rate0 * (1 + e) ^ (st + count), cum_at A rate0 e m (st + count)) := by
  induction count with
  | zero => intro st; simp [loopAux]
  | succ k ih =>
    intro st
    rw [show st + (k + 1) = (st + 1) + k by omega]
    simp only [loopAux, loopStep_eq A m e nc rate0 st, ih (st + 1)]
    rw [List.range_succ_eq_map, List.map_cons, List.map_map]
    simp only [Prod.mk.injEq, and_true]
    rw [Nat.add_zero]
    refine congrArg (rowAt A rate0 e m nc (st + 1) :: ·) (List.map_congr_left ?_)
    intro i _
    simp only [Function.comp_apply]
    congr 1
    omega

lemma project_yearly (r : FinancialRow) (A : ℚ) (years : ℕ) :
    (project r A years).yearly_analysis =
      (List.range years).map
        fun i => rowAt A (r.get 1) (r.get 7) (r.get 6) (net_cost_of r A) (i + 1) := by
  have h := loopAux_spec A (r.get 6) (r.get 7) (net_cost_of r A) (r.get 1) years 0
  simp only [pow_zero, mul_one, Nat.zero_add] at h
  have hc : cum_at A (r.get 1) (r.get 7) (r.get 6) 0 = 0 := rfl
  rw [hc] at h
  show (loopAux A (r.get 6) (r.get 7) (net_cost_of r A) 1 years (r.get 1) 0).1 = _
  rw [h]
  exact List.map_congr_left fun i _ => by congr 1; omega

lemma project_break_even (r : FinancialRow) (A : ℚ) (years : ℕ) :
    (project r A years).summary.break_even_year =
      break_even_of (project r A years).yearly_analysis (net_cost_of r A) := rfl

lemma project_rows_getElem (r : FinancialRow) (A : ℚ) (years i : ℕ) (h : i < years) :
    ((project r A years).yearly_analysis)[i]? =
      some (rowAt A (r.get 1) (r.get 7) (r.get 6) (net_cost_of r A) (i + 1)) := by
  rw [project_yearly, List.getElem?_map, List.getElem?_range h, Option.map_some']

lemma project_rows_length (r : FinancialRow) (A : ℚ) (years : ℕ) :
    (project r A years).yearly_analysis.length = years := by
  rw [project_yearly, List.length_map, List.length_range]

lemma project_rows_of_getElem {r : FinancialRow} {A : ℚ} {years i : ℕ} {row : YearRow}
    (h : ((project r A years).yearly_analysis)[i]? = some row) :
    i < years ∧ row = rowAt A (r.get 1) (r.get 7) (r.get 6) (net_cost_of r A) (i + 1) := by
  have hi : i < years := by
    by_contra hge
    rw [List.getElem?_eq_none (by rw [project_rows_length]; omega)] at h
    exact Option.noConfusion h
  refine ⟨hi, ?_⟩
  have := project_rows_getElem r A years i hi
  rw [this] at h
  exact (Option.some.injEq _ _ ▸ h).symm

lemma find?_map_range_eq_some {α : Type} (p : α → Bool) :
    ∀ (n : ℕ) (f : ℕ → α) (a : α),
      ((List.range n).map f).find? p = some a ↔
        ∃ i, i < n ∧ f i = a ∧ p (f i) = true ∧ ∀ j, j < i → p (f j) = false := by
  intro n
  induction n with
  | zero => intro f a; simp
  | succ k ih =>
    intro f a
    rw [List.range_succ_eq_map, List.map_cons, List.map_map]
    by_cases h0 : p (f 0)
    · rw [List.find?_cons_of_pos _ h0]
      constructor
      · intro h
        exact ⟨0, Nat.succ_pos k, Option.some.injEq _ _ ▸ h, h0, fun j hj => absurd hj (Nat.not_lt_zero j)⟩
      · rintro ⟨i, _, hfa, _, hprev⟩
        cases i with
        | zero => rw [hfa]
        | succ n => exact absurd h0 (by simp [hprev 0 (Nat.succ_pos n)])
    · rw [List.find?_cons_of_neg _ h0, ih (f ∘ Nat.succ) a]
      constructor
      · rintro ⟨i, hi, hfa, hp, hprev⟩
        refine ⟨i + 1, by omega, hfa, hp, ?_⟩
        intro j hj
        cases j with
        | zero => exact Bool.not_eq_true _ ▸ h0
        | succ j => exact hprev j (by omega)
      · rintro ⟨i, hi, hfa, hp, hprev⟩
        cases i with
        | zero => exact absurd hp (Bool.not_eq_true _ ▸ h0)
        | succ i => exact ⟨i, by omega, hfa, hp, fun j hj => hprev (j + 1) (by omega)⟩

lemma find?_map_range_eq_none {α : Type} (p : α → Bool) (n : ℕ) (f : ℕ → α) :
    ((List.range n).map f).find? p = none ↔ ∀ i, i < n → p (f i) = false := by
  rw [List.find?_eq_none]
  constructor
  · intro h i hi
    have := h (f i) (List.mem_map_of_mem f (List.mem_range.mpr hi))
    exact Bool.not_eq_true _ ▸ this
  · rintro h x hx
    obtain ⟨i, hi, rfl⟩ := List.mem_map.mp hx
    exact Bool.not_eq_true _ ▸ h i (List.mem_range.mp hi)

lemma cum_at_mono (A r0 e m : ℚ) :
    ∀ b : ℕ, (∀ y, 1 ≤ y → y ≤ b → 0 < net_savings_at A r0 e m y) →
      ∀ a, a ≤ b → cum_at A r0 e m a ≤ cum_at A r0 e m b := by
  intro b
  induction b with
  | zero =>
    intro _ a ha
    have : a = 0 := by omega
    subst this
    exact le_refl _
  | succ k ih =>
    intro hpos a ha
    by_cases hak : a = k + 1
    · subst hak; exact le_refl _
    · have ha2 : a ≤ k := by omega
      have h1 := ih (fun y hy1 hy2 => hpos y hy1 (by omega)) a ha2
      have h2 : 0 < net_savings_at A r0 e m (k + 1) := hpos (k + 1) (by omega) (le_refl _)
      calc cum_at A r0 e m a ≤ cum_at A r0 e m k := h1
        _ ≤ cum_at A r0 e m k + net_savings_at A r0 e m (k + 1) := by linarith
        _ = cum_at A r0 e m (k + 1) := rfl

lemma project_break_even_some_iff (r : FinancialRow) (A : ℚ) (years y : ℕ) :
    (project r A years).summary.break_even_year = some y ↔
      ∃ i, i < years ∧ y = i + 1 ∧
        net_cost_of r A ≤ round2 (cum_at A (r.get 1) (r.get 7) (r.get 6) (i + 1)) ∧
        ∀ j, j < i →
          round2 (cum_at A (r.get 1) (r.get 7) (r.get 6) (j + 1)) < net_cost_of r A := by
  rw [project_break_even, project_yearly]
  unfold break_even_of
  rw [Option.map_eq_some']
  constructor
  · rintro ⟨row, hfind, hyear⟩
    rw [find?_map_range_eq_some] at hfind
    obtain ⟨i, hi, hrow, hp, hprev⟩ := hfind
    subst hrow
    refine ⟨i, hi, ?_, of_decide_eq_true hp, ?_⟩
    · rw [← hyear]; rfl
    · intro j hj
      exact not_le.mp (of_decide_eq_false (hprev j hj))
  · rintro ⟨i, hi, rfl, hle, hprev⟩
    refine ⟨rowAt A (r.get 1) (r.get 7) (r.get 6) (net_cost_of r A) (i + 1), ?_, rfl⟩
    rw [find?_map_range_eq_some]
    exact ⟨i, hi, rfl, decide_eq_true hle,
      fun j hj => decide_eq_false (not_le.mpr (hprev j hj))⟩

lemma project_break_even_none_iff (r : FinancialRow) (A : ℚ) (years : ℕ) :
    (project r A years).summary.break_even_year = none ↔
      ∀ i, i < years →
        round2 (cum_at A (r.get 1) (r.get 7) (r.get 6) (i + 1)) < net_cost_of r A := by
  rw [project_break_even, project_yearly]
  unfold break_even_of
  rw [Option.map_eq_none', find?_map_range_eq_none]
  constructor
  · intro h i hi
    exact not_le.mp (of_decide_eq_false (h i hi))
  · intro h i hi
    exact decide_eq_false (not_le.mpr (h i hi))

/-! ## Concrete inputs used as failing inputs, counterexamples and witnesses -/

/-- The row inserted by the example usage of the source (`__main__` block),
as it would be fetched for property 1. -/
def exRow : FinancialRow :=
  { id := 1, property_id := 1, electricity_rate := 12/100,
    installation_cost_per_watt := 11/4, incentives := 5000, financing_rate := 9/2,
    financing_term := 20, maintenance_cost_annual := 200,
    electricity_price_increase := 3/100 }

/-- An all-zero financial row. -/
def zeroRow : FinancialRow := ⟨0, 0, 0, 0, 0, 0, 0, 0, 0⟩

/-- Financing requested (rate 4.5 %, term 20 years) but zero incentives. -/
def c3RowA : FinancialRow := { zeroRow with financing_rate := 9/2, financing_term := 20 }

/-- No financing term, but positive incentives and financing rate. -/
def c3RowB : FinancialRow := { zeroRow with incentives := 5000, financing_rate := 1 }

/-- Zero financing rate with a 10-year term; rate and production chosen so that
the code's net cost is 12000. -/
def c5Row : FinancialRow :=
  { zeroRow with property_id := 1, electricity_rate := 12/100, financing_term := 10 }

/-- A row for which the code's net cost is 1 and year-1 savings exceed it. -/
def c4Row : FinancialRow :=
  { zeroRow with property_id := 1, installation_cost_per_watt := -1 }

/-- A row with unit starting rate (the code starts at `property_id`), no
maintenance and no escalation as the code reads them. -/
def c8Row : FinancialRow := { zeroRow with property_id := 1, electricity_rate := 1 }

/-- A row for which the code's net cost is 995 while the exact year-1
cumulative savings is 994.996, under half a cent below it. -/
def c10Row : FinancialRow :=
  { zeroRow with property_id := 1, installation_cost_per_watt := -995 }

/-- Annual production making the exact year-1 cumulative savings of `c10Row`
equal to 994.996. -/
def c10A : ℚ := 994996/995

/-- A 25-year table with constant yearly net savings of 1000 (cumulative
1000·y), the dataset of the spec's break-even scenario.  Constant net savings
cannot arise from the projection loop itself (production degrades every year),
so the scenario is checked against the break-even detection step
`break_even_of` directly. -/
def scenario_rows : List YearRow :=
  (List.range 25).map fun i =>
    { year := i + 1, production_kwh := 0, electricity_rate := 0,
      yearly_savings := 1000, cumulative_savings := 1000 * ((i : ℚ) + 1),
      roi_percentage := 0 }

/-! ## Claims -/

/-- C1 (code bug): the yearly loop has the claimed shape
(`savings = production * rate`, `net_savings = savings - maintenance`,
`rate *= (1 + escalation)`), but it reads the wrong columns: the rate starts at
`financial_data[1]` which is `property_id` (not `electricity_rate`), the
subtracted "maintenance" is `financial_data[6]` which is `financing_term`, and
the escalation factor is `financial_data[7]` which is `maintenance_cost_annual`
— the `SELECT *` row has `id` at index 0, so every index in the source is off
by one with respect to its own comment.  At the source's own example row
(property 1, rate 0.12, maintenance 200, escalation 0.03, financing term 20)
with 1460 kWh of annual production, the recorded year-1 savings is
`round2 (production * property_id - financing_term) = 1432.7`, whereas the
claimed formula gives `round2 (production * 0.12 - 200) = -25.68`, and the
recorded rate is the escalated `1 * (1 + 200) = 201`. -/
theorem c1_loop_reads_shifted_columns :
    ((project exRow 1460 1).yearly_analysis.map YearRow.yearly_savings =
        [round2 (production_at 1460 1 * exRow.property_id - exRow.financing_term)]) ∧
    ((project exRow 1460 1).yearly_analysis.map YearRow.electricity_rate =
        [round3 (exRow.property_id * (1 + exRow.maintenance_cost_annual))]) ∧
    round2 (production_at 1460 1 * exRow.electricity_rate - exRow.maintenance_cost_annual) ≠
      round2 (production_at 1460 1 * exRow.property_id - exRow.financing_term) := by
  norm_num [project, loopAux, loopStep, exRow, FinancialRow.get, production_at,
    round2, round3, round_eq, net_cost_of, base_cost_of, system_size_of]

/-- C2 (code bug): `system_size_kw = annual_production / (365 * 4)` holds, but
`base_cost` multiplies by `financial_data[2]` which is the stored
`electricity_rate` (not `installation_cost_per_watt`), and `net_cost` subtracts
`financial_data[3]` which is the stored `installation_cost_per_watt` (not
`incentives`).  At the example row with 1460 kWh/year the code yields
`base_cost = 120` and `net_cost = 117.25`, whereas the claimed formulas give
2750 and -2250. -/
theorem c2_costs_read_shifted_columns :
    ((project exRow 1460 1).system_details.size_kw = round2 (system_size_of 1460) ∧
      (project exRow 1460 1).system_details.base_cost =
        round2 (system_size_of 1460 * 1000 * exRow.electricity_rate) ∧
      (project exRow 1460 1).system_details.net_cost =
        round2 (system_size_of 1460 * 1000 * exRow.electricity_rate -
          exRow.installation_cost_per_watt)) ∧
    (project exRow 1460 1).system_details.base_cost ≠
      round2 (system_size_of 1460 * 1000 * exRow.installation_cost_per_watt) ∧
    (project exRow 1460 1).system_details.net_cost ≠
      round2 (system_size_of 1460 * 1000 * exRow.installation_cost_per_watt -
        exRow.incentives) := by
  norm_num [project, exRow, FinancialRow.get, round2, round_eq,
    net_cost_of, base_cost_of, system_size_of]

/-- C3 (code bug): the financing section is gated on
`financial_data[4] > 0 and financial_data[5] > 0`, which because of the column
shift are the stored `incentives` and `financing_rate` — not `financing_rate`
and `financing_term` as claimed.  With financing rate 4.5 and term 20 but zero
incentives the section is absent; with zero term but positive incentives and
rate it is present. -/
theorem c3_financing_gate_reads_shifted_columns :
    ((project c3RowA 1460 1).financing = none ∧
      0 < c3RowA.financing_rate ∧ 0 < c3RowA.financing_term) ∧
    ((project c3RowB 1460 1).financing).isSome = true ∧
      c3RowB.financing_term = 0 := by
  norm_num [project, financing_of, c3RowA, c3RowB, zeroRow, FinancialRow.get]

/-- C5 (code bug): when `financing_rate = 0` the code produces no financing
section at all (the gate `financial_data[5] > 0` fails, `financial_data[5]`
being the stored `financing_rate`), so no zero-rate branch computes
`monthly_payment = net_cost / n`: with rate 0, term 10 and the code's net cost
equal to 12000, the financing field is `none` rather than a payment of 100. -/
theorem c5_zero_rate_financing_absent :
    net_cost_of c5Row 146000 = 12000 ∧ c5Row.financing_rate = 0 ∧
      c5Row.financing_term = 10 ∧ (project c5Row 146000 1).financing = none := by
  norm_num [net_cost_of, base_cost_of, system_size_of, c5Row, zeroRow,
    FinancialRow.get, project, financing_of]

/-- C9 (confirmed): with no `financial_data` row the projection fails with the
missing-financial-data error (the check precedes all computation), so no
default or zeroed `Result` is ever produced. -/
theorem c9_missing_financial_data (A : ℚ) (years : ℕ) :
    calculate_detailed_financials none A years =
      Except.error AuditError.missingFinancialData := rfl

/-- C6 (confirmed): every recorded `production_kwh` for year `y = i + 1` is
`round2 (annual_production * (1 - 0.005 * y))` — the linear degradation
formula, recorded rounded to 2 decimal places as the source does — and the
formula carries no guard against negative values: for `y > 200` and positive
production it is negative. -/
theorem c6_linear_degradation :
    (∀ (r : FinancialRow) (A : ℚ) (years i : ℕ) (row : YearRow),
        ((project r A years).yearly_analysis)[i]? = some row →
        row.production_kwh = round2 (production_at A (i + 1))) ∧
    ∀ (A : ℚ) (y : ℕ), 0 < A → 200 < y → production_at A y < 0 := by
  constructor
  · intro r A years i row h
    obtain ⟨-, rfl⟩ := project_rows_of_getElem h
    rfl
  · intro A y hA hy
    unfold production_at
    have hy2 : (201 : ℚ) ≤ (y : ℚ) := by exact_mod_cast hy
    have hneg : 1 - 5 / 1000 * (y : ℚ) < 0 := by linarith
    exact mul_neg_of_pos_of_neg hA hneg

/-- Witness for C6 at the example row, one-year horizon, and at
`production_at 1 201 < 0`. -/
theorem c6_linear_degradation_witness :
    (⟨1, 14527/10, 201, 14327/10, 14327/10, 30548/25⟩ : YearRow).production_kwh =
        round2 (production_at 1460 (0 + 1)) ∧
      production_at 1 201 < 0 :=
  ⟨c6_linear_degradation.1 exRow 1460 1 0 _ (by
      norm_num [project, loopAux, loopStep, exRow, FinancialRow.get,
        round2, round3, round_eq, net_cost_of, base_cost_of, system_size_of]),
   c6_linear_degradation.2 1 201 one_pos (by norm_num)⟩

/-- C7 counterexample: at annual production 0 (allowed, the spec requires only
`annual_production_kwh ≥ 0`) every recorded `production_kwh` over a 25-year
horizon is 0, so the sequence is not strictly decreasing and the year-25
production equals the year-1 production instead of being below it. -/
theorem c7_counterexample_constant_zero_production :
    ((project zeroRow 0 25).yearly_analysis.map YearRow.production_kwh =
        List.replicate 25 (0 : ℚ)) ∧
    ((project zeroRow 0 25).yearly_analysis)[24]?.map YearRow.production_kwh =
      ((project zeroRow 0 25).yearly_analysis)[0]?.map YearRow.production_kwh := by
  norm_num [project, loopAux, loopStep, zeroRow, FinancialRow.get, round2, round3,
    round_eq, net_cost_of, base_cost_of, system_size_of, List.replicate]

/-- C7 (amended): for annual production `A ≥ 0` the recorded `production_kwh`
values are non-increasing from one year to the next; the unrounded production
`A * (1 - 0.005 y)` is strictly decreasing in `y` whenever `A > 0`, and in
particular the year-25 value is below the year-1 value. -/
theorem c7_amended_production_nonincreasing :
    (∀ (r : FinancialRow) (A : ℚ) (years i : ℕ) (rowi rowj : YearRow),
        0 ≤ A →
        ((project r A years).yearly_analysis)[i]? = some rowi →
        ((project r A years).yearly_analysis)[i + 1]? = some rowj →
        rowj.production_kwh ≤ rowi.production_kwh) ∧
    (∀ (A : ℚ) (y : ℕ), 0 < A → production_at A (y + 1) < production_at A y) ∧
    ∀ A : ℚ, 0 < A → production_at A 25 < production_at A 1 := by
  refine ⟨?_, ?_, ?_⟩
  · intro r A years i rowi rowj hA hi hj
    obtain ⟨-, rfl⟩ := project_rows_of_getElem hi
    obtain ⟨-, rfl⟩ := project_rows_of_getElem hj
    show round2 (production_at A (i + 1 + 1)) ≤ round2 (production_at A (i + 1))
    apply round2_mono
    unfold production_at
    refine mul_le_mul_of_nonneg_left ?_ hA
    push_cast
    linarith
  · intro A y hA
    unfold production_at
    refine mul_lt_mul_of_pos_left ?_ hA
    push_cast
    linarith
  · intro A hA
    unfold production_at
    refine mul_lt_mul_of_pos_left ?_ hA
    norm_num

/-- Witness for the amended C7 at a concrete two-year projection and at
concrete positive production. -/
theorem c7_amended_production_nonincreasing_witness :
    ((⟨2, 7227/5, 1, 7227/5, 28981/10, 28981/100⟩ : YearRow).production_kwh ≤
      (⟨1, 14527/10, 1, 14527/10, 14527/10, 14527/100⟩ : YearRow).production_kwh) ∧
    production_at 2 2 < production_at 2 1 ∧
    production_at 2 25 < production_at 2 1 :=
  ⟨c7_amended_production_nonincreasing.1 c8Row 1460 2 0 _ _ (by norm_num)
      (by norm_num [project, loopAux, loopStep, c8Row, zeroRow, FinancialRow.get,
        round2, round3, round_eq, net_cost_of, base_cost_of, system_size_of])
      (by norm_num [project, loopAux, loopStep, c8Row, zeroRow, FinancialRow.get,
        round2, round3, round_eq, net_cost_of, base_cost_of, system_size_of]),
   c7_amended_production_nonincreasing.2.1 2 1 (by norm_num),
   c7_amended_production_nonincreasing.2.2 2 (by norm_num)⟩

/-- C8 (confirmed): each recorded `roi_percentage` is
`round2 (cumulative / net_cost * 100)` when `net_cost > 0` and `round2 0 = 0`
otherwise (the cumulative used is the exact running sum, before the 2-decimal
recording); and when `net_cost > 0` and every year's net savings is positive,
the recorded ROI values are non-decreasing across years. -/
theorem c8_roi_formula_and_monotonicity :
    (∀ (r : FinancialRow) (A : ℚ) (years i : ℕ) (row : YearRow),
        ((project r A years).yearly_analysis)[i]? = some row →
        row.roi_percentage = round2 (if net_cost_of r A > 0 then
          cum_at A (r.get 1) (r.get 7) (r.get 6) (i + 1) / net_cost_of r A * 100
        else 0)) ∧
    ∀ (r : FinancialRow) (A : ℚ) (years i j : ℕ) (rowi rowj : YearRow),
      ((project r A years).yearly_analysis)[i]? = some rowi →
      ((project r A years).yearly_analysis)[j]? = some rowj →
      i ≤ j → 0 < net_cost_of r A →
      (∀ y, 1 ≤ y → y ≤ years → 0 < net_savings_at A (r.get 1) (r.get 7) (r.get 6) y) →
      rowi.roi_percentage ≤ rowj.roi_percentage := by
  constructor
  · intro r A years i row h
    obtain ⟨-, rfl⟩ := project_rows_of_getElem h
    rfl
  · intro r A years i j rowi rowj hi hj hij hnc hpos
    obtain ⟨hiy, rfl⟩ := project_rows_of_getElem hi
    obtain ⟨hjy, rfl⟩ := project_rows_of_getElem hj
    show round2 (if net_cost_of r A > 0 then
        cum_at A (r.get 1) (r.get 7) (r.get 6) (i + 1) / net_cost_of r A * 100 else 0) ≤
      round2 (if net_cost_of r A > 0 then
        cum_at A (r.get 1) (r.get 7) (r.get 6) (j + 1) / net_cost_of r A * 100 else 0)
    rw [if_pos hnc, if_pos hnc]
    apply round2_mono
    have hcum := cum_at_mono A (r.get 1) (r.get 7) (r.get 6) (j + 1)
      (fun y hy1 hy2 => hpos y hy1 (by omega)) (i + 1) (by omega)
    exact mul_le_mul_of_nonneg_right ((div_le_div_iff_of_pos_right hnc).mpr hcum)
      (by norm_num)

/-- Witness for C8 at a concrete two-year projection with positive net cost
and positive net savings in both years. -/
theorem c8_roi_formula_and_monotonicity_witness :
    (⟨1, 14527/10, 1, 14527/10, 14527/10, 14527/100⟩ : YearRow).roi_percentage ≤
      (⟨2, 7227/5, 1, 7227/5, 28981/10, 28981/100⟩ : YearRow).roi_percentage :=
  c8_roi_formula_and_monotonicity.2 c8Row 1460 2 0 1 _ _
    (by norm_num [project, loopAux, loopStep, c8Row, zeroRow, FinancialRow.get,
      round2, round3, round_eq, net_cost_of, base_cost_of, system_size_of])
    (by norm_num [project, loopAux, loopStep, c8Row, zeroRow, FinancialRow.get,
      round2, round3, round_eq, net_cost_of, base_cost_of, system_size_of])
    (by omega)
    (by norm_num [net_cost_of, base_cost_of, system_size_of, c8Row, zeroRow,
      FinancialRow.get])
    (fun y h1 h2 => by
      interval_cases y <;>
        norm_num [net_savings_at, production_at, rate_at, c8Row, zeroRow,
          FinancialRow.get])

/-- C4 (confirmed): `break_even_year = some y` exactly when `y` is the first
year in `1..years` whose recorded (2-decimal) cumulative savings reaches the
unrounded net cost, and it is the `none` sentinel when no year in the horizon
reaches it; and the break-even detection applied to the spec's scenario table
(net cost 10000, constant net savings 1000 per year) returns year 10 exactly.
The scenario is stated on `break_even_of`, the source's detection step, because
constant net savings cannot arise from the projection loop itself (production
degrades every year). -/
theorem c4_break_even_first_reaching_year :
    (∀ (r : FinancialRow) (A : ℚ) (years y : ℕ),
        (project r A years).summary.break_even_year = some y ↔
          1 ≤ y ∧ y ≤ years ∧
            net_cost_of r A ≤ round2 (cum_at A (r.get 1) (r.get 7) (r.get 6) y) ∧
            ∀ k, 1 ≤ k → k < y →
              round2 (cum_at A (r.get 1) (r.get 7) (r.get 6) k) < net_cost_of r A) ∧
    (∀ (r : FinancialRow) (A : ℚ) (years : ℕ),
        (∀ y, 1 ≤ y → y ≤ years →
          round2 (cum_at A (r.get 1) (r.get 7) (r.get 6) y) < net_cost_of r A) →
        (project r A years).summary.break_even_year = none) ∧
    break_even_of scenario_rows 10000 = some 10 := by
  refine ⟨?_, ?_, ?_⟩
  · intro r A years y
    rw [project_break_even_some_iff]
    constructor
    · rintro ⟨i, hi, rfl, hle, hprev⟩
      refine ⟨by omega, by omega, hle, ?_⟩
      intro k hk1 hk2
      have hk : k - 1 < i := by omega
      have h2 := hprev (k - 1) hk
      rwa [show k - 1 + 1 = k by omega] at h2
    · rintro ⟨hy1, hy2, hle, hprev⟩
      refine ⟨y - 1, by omega, by omega, ?_, ?_⟩
      · rwa [show y - 1 + 1 = y by omega]
      · intro j hj
        exact hprev (j + 1) (by omega) (by omega)
  · intro r A years h
    rw [project_break_even_none_iff]
    intro i hi
    exact h (i + 1) (by omega) (by omega)
  · unfold break_even_of scenario_rows
    have hf := (find?_map_range_eq_some
        (fun row : YearRow => decide ((10000:ℚ) ≤ row.cumulative_savings)) 25
        (fun i => (⟨i + 1, 0, 0, 1000, 1000 * ((i : ℚ) + 1), 0⟩ : YearRow))
        (⟨9 + 1, 0, 0, 1000, 1000 * (((9:ℕ) : ℚ) + 1), 0⟩ : YearRow)).mpr
      ⟨9, by omega, rfl, decide_eq_true (by norm_num), ?_⟩
    · rw [hf]
      rfl
    · intro j hj
      apply decide_eq_false
      rw [not_le]
      show (1000 : ℚ) * ((j : ℚ) + 1) < 10000
      have hj8 : (j : ℚ) ≤ 8 := by exact_mod_cast (by omega : j ≤ 8)
      nlinarith

/-- Witness for C4: a one-year projection whose net cost (1) is reached by the
recorded year-1 cumulative savings (1.99). -/
theorem c4_break_even_first_reaching_year_witness :
    (project c4Row 2 1).summary.break_even_year = some 1 :=
  (c4_break_even_first_reaching_year.1 c4Row 2 1 1).mpr
    ⟨le_refl 1, le_refl 1,
     by norm_num [cum_at, net_savings_at, production_at, rate_at, round2, round_eq,
       net_cost_of, base_cost_of, system_size_of, c4Row, zeroRow, FinancialRow.get],
     fun k hk1 hk2 => absurd (lt_of_le_of_lt hk1 hk2) (lt_irrefl 1)⟩

/-- C10 (confirmed): the break-even comparison tests the recorded (2-decimal
rounded) cumulative savings against the unrounded net cost.  The concrete
instance has exact year-1 cumulative savings 994.996, under half a cent below
the net cost 995, yet year 1 is reported as the break-even year because its
recorded value rounds up to 995. -/
theorem c10_break_even_compares_rounded_cumulative :
    (∀ (r : FinancialRow) (A : ℚ) (years y : ℕ),
        (project r A years).summary.break_even_year = some y →
        net_cost_of r A ≤ round2 (cum_at A (r.get 1) (r.get 7) (r.get 6) y)) ∧
    (∀ (r : FinancialRow) (A : ℚ) (years : ℕ),
        (project r A years).summary.break_even_year = none →
        ∀ y, 1 ≤ y → y ≤ years →
          round2 (cum_at A (r.get 1) (r.get 7) (r.get 6) y) < net_cost_of r A) ∧
    ((project c10Row c10A 1).summary.break_even_year = some 1 ∧
      cum_at c10A (c10Row.get 1) (c10Row.get 7) (c10Row.get 6) 1 <
        net_cost_of c10Row c10A ∧
      net_cost_of c10Row c10A ≤
        round2 (cum_at c10A (c10Row.get 1) (c10Row.get 7) (c10Row.get 6) 1)) := by
  refine ⟨?_, ?_, ?_, ?_, ?_⟩
  · intro r A years y h
    obtain ⟨i, -, rfl, hle, -⟩ := (project_break_even_some_iff r A years y).mp h
    exact hle
  · intro r A years h y hy1 hy2
    have h2 := (project_break_even_none_iff r A years).mp h (y - 1) (by omega)
    rwa [show y - 1 + 1 = y by omega] at h2
  · exact (project_break_even_some_iff c10Row c10A 1 1).mpr
      ⟨0, by omega, rfl,
       by norm_num [cum_at, net_savings_at, production_at, rate_at, round2, round_eq,
         c10A, c10Row, zeroRow, FinancialRow.get, net_cost_of, base_cost_of,
         system_size_of],
       fun j hj => absurd hj (Nat.not_lt_zero j)⟩
  · norm_num [cum_at, net_savings_at, production_at, rate_at, c10A, c10Row, zeroRow,
      FinancialRow.get, net_cost_of, base_cost_of, system_size_of]
  · norm_num [cum_at, net_savings_at, production_at, rate_at, round2, round_eq,
      c10A, c10Row, zeroRow, FinancialRow.get, net_cost_of, base_cost_of,
      system_size_of]

/-- Witness for C10: the first component applied at the concrete instance of
its own third component. -/
theorem c10_break_even_compares_rounded_cumulative_witness :
    net_cost_of c10Row c10A ≤
      round2 (cum_at c10A (c10Row.get 1) (c10Row.get 7) (c10Row.get 6) 1) :=
  c10_break_even_compares_rounded_cumulative.1 c10Row c10A 1 1
    c10_break_even_compares_rounded_cumulative.2.2.1

end Sunerdsapp
